import Mathlib

/-!
Verification of the Solar Flare Prediction API backend.

The development shallowly embeds the behaviorally relevant parts of the
Python sources (app/pipeline.py, app/api.py, app/core.py, app/models.py):
UTC instants become integers on an epoch-seconds timeline, Python floats
become exact rationals, the Supabase tables become lists of records, the
outbound HTTP call of the feed client becomes an explicit outcome value,
and Python runtime exceptions become an error sum in Except.
-/

namespace SolarFlare

/-- Application settings, from the Settings class in core.py. Only the hour
constants participate in the verified behavior; connection data, table
names and the feed URL are transport-level strings. Defaults are the ones
declared in core.py. -/
structure Settings where
  ML_LOOKBACK_HOURS : ℤ := 24
  DATA_RETRIEVAL_HOURS : ℤ := 48
  BUFFER_HOURS : ℤ := 1
  DEFAULT_REQUEST_HOURS : ℤ := 48
  MAX_REQUEST_HOURS : ℤ := 168
deriving DecidableEq, Repr

/-- Seconds in h hours: models timedelta(hours=h) on the epoch-seconds timeline. -/
def hoursToSec (h : ℤ) : ℤ := 3600 * h

/-- One cleaned observation record as stored in the observation_data table:
the dict built at line 27 of pipeline.py, keyed by timestamp. -/
structure Obs where
  timestamp : ℤ
  xray_flux : ℚ
deriving DecidableEq, Repr

/-- One raw record of the external feed body: an energy-channel tag (a
missing key is none, matching the record.get access), a time tag and a
flux value. -/
structure RawRecord where
  energy : Option String
  time_tag : ℤ
  flux : ℚ
deriving DecidableEq, Repr

/-- One prediction record as stored in the model_predictions table, the
result dict of predict in pipeline.py. -/
structure Prediction where
  timestamp : ℤ
  m_class_probability : ℚ
  risk_level : String
  model_version : String
deriving DecidableEq, Repr

/-- Opaque model handle; load_model_from_registry returns an empty dict. -/
structure Model where
deriving DecidableEq, Repr

/-- load_model_from_registry, pipeline.py lines 30 to 34. -/
def load_model_from_registry : Model := {}

/-- Python runtime exceptions that the embedded code can raise. -/
inductive PyError where
  | indexError
  | unboundLocalError
deriving DecidableEq, Repr

/-- Outcome of the outbound HTTP GET plus JSON decode in fetch_solar_data.
requestFailure covers a network error, a non-2xx status raised by
raise_for_status, and a malformed body: each raises a
requests.exceptions.RequestException caught at line 19 of pipeline.py. -/
inductive FeedResponse where
  | success (records : List RawRecord)
  | requestFailure
deriving DecidableEq, Repr

/-- Filtering and cleaning steps of fetch_solar_data, pipeline.py lines 23
to 27: keep the 0.1-0.8nm channel, keep records at or after start_time,
retain timestamp and flux. -/
def cleanFeed (start_time : ℤ) (records : List RawRecord) : List Obs :=
  let filtered1 := records.filter (fun r => r.energy == some "0.1-0.8nm")
  let filtered2 := filtered1.filter (fun r => decide (start_time ≤ r.time_tag))
  filtered2.map (fun r => { timestamp := r.time_tag, xray_flux := r.flux })

/-- fetch_solar_data, pipeline.py lines 10 to 28. The except branch only
prints the RequestException, so on a failed call the local variable data
is never bound and line 24 raises UnboundLocalError when it reads data. -/
def fetch_solar_data (start_time : ℤ) (feed : FeedResponse) : Except PyError (List Obs) :=
  match feed with
  | .success records => .ok (cleanFeed start_time records)
  | .requestFailure => .error .unboundLocalError

/-- predict, pipeline.py lines 36 to 61: mean flux over the window when the
window is non-empty, two fixed risk thresholds, and a probability that is
the ratio of the mean to the last element's flux, guarded to 0.0 when the
window is empty or the last flux is not positive. data[-1] is getLast?. -/
def predict (model : Model) (now : ℤ) (data : List Obs) : Prediction :=
  let flux_prediction : ℚ :=
    if data ≠ [] then (data.map Obs.xray_flux).sum / (data.length : ℚ) else 0
  let risk_level : String :=
    if flux_prediction > 1 / 10000 then "High"
    else if flux_prediction > 1 / 1000000 then "Medium"
    else "Low"
  let m_class_probability : ℚ :=
    match data.getLast? with
    | some lastObs => if lastObs.xray_flux > 0 then flux_prediction / lastObs.xray_flux else 0
    | none => 0
  { timestamp := now
    m_class_probability := m_class_probability
    risk_level := risk_level
    model_version := "N/A" }

/-- Arithmetic mean of a list of rationals, in the words of the spec. -/
def arithmeticMean (xs : List ℚ) : ℚ := xs.sum / xs.length

/-- State of the two Supabase tables the pipeline and the API read and write. -/
structure DB where
  observation_data : List Obs
  model_predictions : List Prediction
deriving DecidableEq, Repr

/-- Result list of a select-order-by-timestamp-descending-limit-1 query:
the record with the greatest timestamp, when the table has one. -/
def latestRecord {α : Type} (ts : α → ℤ) (table : List α) : Option α :=
  match table with
  | [] => none
  | o :: rest => some (rest.foldl (fun acc r => if ts acc < ts r then r else acc) o)

/-- Postgres upsert with timestamp as primary key: a write whose key matches
an existing row replaces that row, otherwise the row is inserted. -/
def upsertByTimestamp {α : Type} (ts : α → ℤ) (table : List α) (r : α) : List α :=
  if table.any (fun o => decide (ts o = ts r))
  then table.map (fun o => if ts o = ts r then r else o)
  else table ++ [r]

/-- How a pipeline run ends when no Python exception escapes: the early
returns at steps 2 and 4 of run_prediction_pipeline, or full completion. -/
inductive Outcome where
  | noNewData
  | noModelInputData
  | completed
deriving DecidableEq, Repr

/-- Fetch-window start computation, pipeline.py lines 80 to 85: clamp the
latest stored timestamp against now minus DATA_RETRIEVAL_HOURS, then
subtract the BUFFER_HOURS safety buffer. -/
def computeStart (now date_obj : ℤ) (s : Settings) : ℤ :=
  let start_time :=
    if date_obj < now - hoursToSec s.DATA_RETRIEVAL_HOURS
    then now - hoursToSec s.DATA_RETRIEVAL_HOURS
    else date_obj
  start_time - hoursToSec s.BUFFER_HOURS

/-- run_prediction_pipeline, pipeline.py lines 64 to 119, as a function of
the initial table state, the settings, the current instant and the outcome
of the external feed call. Line 78 indexes latest_record.data[0] with no
emptiness guard, hence the IndexError branch on an empty observation
table. -/
def run_prediction_pipeline (db : DB) (s : Settings) (now : ℤ) (feed : FeedResponse) :
    Except PyError (DB × Outcome) :=
  match latestRecord Obs.timestamp db.observation_data with
  | none => .error .indexError
  | some latest =>
    let start_time := computeStart now latest.timestamp s
    match fetch_solar_data start_time feed with
    | .error e => .error e
    | .ok new_data =>
      if new_data = [] then .ok (db, .noNewData)
      else
        let obsTable1 := new_data.foldl (upsertByTimestamp Obs.timestamp) db.observation_data
        let db1 : DB := { db with observation_data := obsTable1 }
        let lookback_start_time := now - hoursToSec s.ML_LOOKBACK_HOURS
        let model_input_data := db1.observation_data.filter
          (fun o => decide (lookback_start_time ≤ o.timestamp))
        if model_input_data = [] then .ok (db1, .noModelInputData)
        else
          let model := load_model_from_registry
          let prediction_result := predict model now model_input_data
          let predTable2 := upsertByTimestamp Prediction.timestamp db1.model_predictions prediction_result
          let db2 : DB := { db1 with model_predictions := predTable2 }
          .ok (db2, .completed)

/-- Result of a FastAPI endpoint call: a payload or an HTTPException. -/
inductive ApiResult (α : Type) where
  | ok (payload : α)
  | httpError (statusCode : ℕ) (detail : String)
deriving DecidableEq, Repr

/-- GET /api/predictions/latest, api.py lines 27 to 35. -/
def get_latest_prediction (table : List Prediction) : ApiResult Prediction :=
  match latestRecord Prediction.timestamp table with
  | none => .httpError 404 "No predictions found."
  | some p => .ok p

/-- GET /api/data/latest, api.py lines 53 to 61. -/
def get_latest_observation (table : List Obs) : ApiResult Obs :=
  match latestRecord Obs.timestamp table with
  | none => .httpError 404 "No observations found."
  | some o => .ok o

/-- Validation of the optional timeframe_hours query parameter, identical at
api.py lines 42 to 44 and 68 to 70. -/
def validateTimeframe (s : Settings) (timeframe_hours : Option ℤ) : ℤ :=
  match timeframe_hours with
  | none => s.DEFAULT_REQUEST_HOURS
  | some t => if t > s.MAX_REQUEST_HOURS ∨ t < 1 then s.DEFAULT_REQUEST_HOURS else t

/-- Historical-response payload shape from models.py: a record count and the
record list. -/
structure HistoricalResponse (α : Type) where
  record_count : ℕ
  data : List α
deriving DecidableEq, Repr

/-- GET /api/predictions, api.py lines 37 to 50. -/
def get_historical_predictions (table : List Prediction) (now : ℤ) (s : Settings)
    (timeframe_hours : Option ℤ) : ApiResult (HistoricalResponse Prediction) :=
  let tf := validateTimeframe s timeframe_hours
  let start_time := now - hoursToSec tf
  let predictions := table.filter (fun p => decide (start_time ≤ p.timestamp))
  .ok { record_count := predictions.length, data := predictions }

/-- GET /api/data, api.py lines 63 to 76. -/
def get_historical_observations (table : List Obs) (now : ℤ) (s : Settings)
    (timeframe_hours : Option ℤ) : ApiResult (HistoricalResponse Obs) :=
  let tf := validateTimeframe s timeframe_hours
  let start_time := now - hoursToSec tf
  let observations := table.filter (fun o => decide (start_time ≤ o.timestamp))
  .ok { record_count := observations.length, data := observations }

/-- Lookback selection in the words of the spec: the supplied value when it
lies in the configured range from 1 to MAX_REQUEST_HOURS, the configured
default otherwise or when the parameter is absent. -/
def specLookback (s : Settings) (timeframe_hours : Option ℤ) : ℤ :=
  match timeframe_hours with
  | none => s.DEFAULT_REQUEST_HOURS
  | some t => if 1 ≤ t ∧ t ≤ s.MAX_REQUEST_HOURS then t else s.DEFAULT_REQUEST_HOURS

end SolarFlare

namespace SolarFlare

/-- A select-order-by-timestamp-descending-limit-1 query returns no rows
exactly when the table is empty. -/
theorem latestRecord_eq_none_iff {α : Type} (ts : α → ℤ) (table : List α) :
    latestRecord ts table = none ↔ table = [] := by
  cases table <;> simp [latestRecord]

/-- On a non-empty window, the risk level computed by predict is determined
by fixed thresholds on the arithmetic mean of the flux values. -/
theorem predict_mean_risk (model : Model) (now : ℤ) (data : List Obs) (h : data ≠ []) :
    (predict model now data).risk_level =
      if arithmeticMean (data.map Obs.xray_flux) > 1 / 10000 then "High"
      else if arithmeticMean (data.map Obs.xray_flux) > 1 / 1000000 then "Medium"
      else "Low" := by
  simp [predict, arithmeticMean, h]

/-- C1 fails on the code: on the window with fluxes 2e-6 then 1e-6 the mean
is 1.5e-6 and the reported probability, the ratio of the mean to the last
flux, equals 1.5, outside [0,1]. models.py bounds m_class_probability by
ge 0.0 and le 1.0, which this stored value violates. -/
theorem probability_exceeds_one_on_flux_drop :
    (predict {} 0 [{ timestamp := 0, xray_flux := 2 / 1000000 },
        { timestamp := 60, xray_flux := 1 / 1000000 }]).m_class_probability = 3 / 2
    ∧ ¬ (predict {} 0 [{ timestamp := 0, xray_flux := 2 / 1000000 },
        { timestamp := 60, xray_flux := 1 / 1000000 }]).m_class_probability ≤ 1 := by
  constructor
  · simp [predict, List.getLast?, List.getLast]
    norm_num
  · simp [predict, List.getLast?, List.getLast]
    norm_num

/-- C2 fails on the code: on an empty observation table the latest-record
query returns no rows and pipeline.py line 78 indexes data[0] without an
emptiness guard, so the run aborts with IndexError instead of proceeding
from now minus DATA_RETRIEVAL_HOURS. -/
theorem cold_start_raises_index_error (preds : List Prediction) (s : Settings) (now : ℤ)
    (feed : FeedResponse) :
    run_prediction_pipeline { observation_data := [], model_predictions := preds } s now feed
      = .error .indexError := rfl

/-- C3 fails on the code: a transport or parse failure of the feed call is
caught and merely printed, leaving the local variable data unbound, so the
fetch aborts with UnboundLocalError rather than a FeedUnavailable error
(no such error type exists in the code); an empty filtered result is still
returned as a successful empty list without raising. -/
theorem fetch_failure_raises_unbound_local :
    (∀ start_time : ℤ, fetch_solar_data start_time .requestFailure = .error .unboundLocalError)
    ∧ (∀ (start_time : ℤ) (records : List RawRecord), cleanFeed start_time records = [] →
        fetch_solar_data start_time (.success records) = .ok []) := by
  constructor
  · intro st
    rfl
  · intro st records h
    simp [fetch_solar_data, h]

/-- Witness for the feed-failure theorem at concrete inputs. -/
theorem fetch_failure_raises_unbound_local_witness :
    fetch_solar_data 0 .requestFailure = .error .unboundLocalError
    ∧ cleanFeed 0 [] = []
    ∧ fetch_solar_data 0 (.success []) = .ok [] :=
  ⟨fetch_failure_raises_unbound_local.1 0, rfl,
   fetch_failure_raises_unbound_local.2 0 [] rfl⟩

/-- C4: with a stored latest observation, a timestamp older than now minus
DATA_RETRIEVAL_HOURS is clamped to that bound and a newer one is used as
is, and BUFFER_HOURS is subtracted from the chosen start in both cases. -/
theorem fetch_window_clamp_and_buffer (now date_obj : ℤ) (s : Settings) :
    (date_obj < now - hoursToSec s.DATA_RETRIEVAL_HOURS →
        computeStart now date_obj s
          = (now - hoursToSec s.DATA_RETRIEVAL_HOURS) - hoursToSec s.BUFFER_HOURS)
    ∧ (¬ date_obj < now - hoursToSec s.DATA_RETRIEVAL_HOURS →
        computeStart now date_obj s = date_obj - hoursToSec s.BUFFER_HOURS) := by
  constructor <;> intro h <;> simp [computeStart, h]

/-- Witness for the window computation at concrete inputs, one per branch. -/
theorem fetch_window_clamp_and_buffer_witness :
    ((-1000000 : ℤ) < 0 - hoursToSec (({} : Settings)).DATA_RETRIEVAL_HOURS
      ∧ computeStart 0 (-1000000) {}
          = (0 - hoursToSec (({} : Settings)).DATA_RETRIEVAL_HOURS)
              - hoursToSec (({} : Settings)).BUFFER_HOURS)
    ∧ (¬ (0 : ℤ) < 0 - hoursToSec (({} : Settings)).DATA_RETRIEVAL_HOURS
      ∧ computeStart 0 0 {} = 0 - hoursToSec (({} : Settings)).BUFFER_HOURS) :=
  ⟨⟨by norm_num [hoursToSec], (fetch_window_clamp_and_buffer 0 (-1000000) {}).1 (by norm_num [hoursToSec])⟩,
   ⟨by norm_num [hoursToSec], (fetch_window_clamp_and_buffer 0 0 {}).2 (by norm_num [hoursToSec])⟩⟩

/-- C5: on every non-empty window, predict scores by the arithmetic mean of
the flux values and assigns High above 1e-4, Medium above 1e-6 and Low
otherwise. -/
theorem predict_risk_by_mean_thresholds (model : Model) (now : ℤ) (data : List Obs)
    (h : data ≠ []) :
    (predict model now data).risk_level =
      if arithmeticMean (data.map Obs.xray_flux) > 1 / 10000 then "High"
      else if arithmeticMean (data.map Obs.xray_flux) > 1 / 1000000 then "Medium"
      else "Low" :=
  predict_mean_risk model now data h

/-- Witness for the threshold theorem at a concrete one-element window. -/
theorem predict_risk_by_mean_thresholds_witness :
    ([{ timestamp := 0, xray_flux := 1 }] : List Obs) ≠ []
    ∧ (predict {} 0 [{ timestamp := 0, xray_flux := 1 }]).risk_level =
        (if arithmeticMean (([{ timestamp := 0, xray_flux := 1 }] : List Obs).map Obs.xray_flux) > 1 / 10000 then "High"
         else if arithmeticMean (([{ timestamp := 0, xray_flux := 1 }] : List Obs).map Obs.xray_flux) > 1 / 1000000 then "Medium"
         else "Low") :=
  ⟨by simp, predict_risk_by_mean_thresholds {} 0 _ (by simp)⟩

/-- C6 fails on the code: a window of mean flux exactly 5e-5 is classified
Medium, not High, because 5e-5 does not exceed the 1e-4 threshold, and a
window of mean 5e-7 is classified Low, not Medium, because 5e-7 does not
exceed 1e-6. -/
theorem risk_synthetic_means_counterexample :
    arithmeticMean (([{ timestamp := 0, xray_flux := 5 / 100000 }] : List Obs).map Obs.xray_flux) = 5 / 100000
    ∧ (predict {} 0 [{ timestamp := 0, xray_flux := 5 / 100000 }]).risk_level = "Medium"
    ∧ (predict {} 0 [{ timestamp := 0, xray_flux := 5 / 100000 }]).risk_level ≠ "High"
    ∧ arithmeticMean (([{ timestamp := 0, xray_flux := 5 / 10000000 }] : List Obs).map Obs.xray_flux) = 5 / 10000000
    ∧ (predict {} 0 [{ timestamp := 0, xray_flux := 5 / 10000000 }]).risk_level = "Low"
    ∧ (predict {} 0 [{ timestamp := 0, xray_flux := 5 / 10000000 }]).risk_level ≠ "Medium" := by
  have he1 : (predict {} 0 [{ timestamp := 0, xray_flux := 5 / 100000 }]).risk_level = "Medium" := by
    simp [predict]
    norm_num
  have he2 : (predict {} 0 [{ timestamp := 0, xray_flux := 5 / 10000000 }]).risk_level = "Low" := by
    simp [predict]
    norm_num
  refine ⟨by simp [arithmeticMean], he1, ?_, by simp [arithmeticMean], he2, ?_⟩
  · rw [he1]
    decide
  · rw [he2]
    decide

/-- C6 amended: windows of mean flux 5e-5, 5e-7 and 5e-8 are classified
Medium, Low and Low respectively. -/
theorem risk_synthetic_means_amended (model : Model) (now : ℤ) (d1 d2 d3 : List Obs)
    (h1 : d1 ≠ []) (hm1 : arithmeticMean (d1.map Obs.xray_flux) = 5 / 100000)
    (h2 : d2 ≠ []) (hm2 : arithmeticMean (d2.map Obs.xray_flux) = 5 / 10000000)
    (h3 : d3 ≠ []) (hm3 : arithmeticMean (d3.map Obs.xray_flux) = 5 / 100000000) :
    (predict model now d1).risk_level = "Medium"
    ∧ (predict model now d2).risk_level = "Low"
    ∧ (predict model now d3).risk_level = "Low" := by
  refine ⟨?_, ?_, ?_⟩
  · rw [predict_mean_risk model now d1 h1, hm1]
    rw [if_neg (by norm_num), if_pos (by norm_num)]
  · rw [predict_mean_risk model now d2 h2, hm2]
    rw [if_neg (by norm_num), if_neg (by norm_num)]
  · rw [predict_mean_risk model now d3 h3, hm3]
    rw [if_neg (by norm_num), if_neg (by norm_num)]

/-- Witness for the amended synthetic-means theorem at concrete windows. -/
theorem risk_synthetic_means_amended_witness :
    arithmeticMean (([{ timestamp := 0, xray_flux := 5 / 100000 }] : List Obs).map Obs.xray_flux) = 5 / 100000
    ∧ arithmeticMean (([{ timestamp := 0, xray_flux := 5 / 10000000 }] : List Obs).map Obs.xray_flux) = 5 / 10000000
    ∧ arithmeticMean (([{ timestamp := 0, xray_flux := 5 / 100000000 }] : List Obs).map Obs.xray_flux) = 5 / 100000000
    ∧ ((predict {} 0 [{ timestamp := 0, xray_flux := 5 / 100000 }]).risk_level = "Medium"
        ∧ (predict {} 0 [{ timestamp := 0, xray_flux := 5 / 10000000 }]).risk_level = "Low"
        ∧ (predict {} 0 [{ timestamp := 0, xray_flux := 5 / 100000000 }]).risk_level = "Low") :=
  ⟨by simp [arithmeticMean], by simp [arithmeticMean], by simp [arithmeticMean],
   risk_synthetic_means_amended {} 0 _ _ _ (by simp) (by simp [arithmeticMean])
     (by simp) (by simp [arithmeticMean]) (by simp) (by simp [arithmeticMean])⟩

/-- C7: when the fetch step yields an empty sequence, the run ends
successfully as a no-op and both tables are exactly as before the run. -/
theorem empty_feed_noop (db : DB) (s : Settings) (now : ℤ) (feed : FeedResponse)
    (latest : Obs)
    (hlatest : latestRecord Obs.timestamp db.observation_data = some latest)
    (hempty : fetch_solar_data (computeStart now latest.timestamp s) feed = .ok []) :
    run_prediction_pipeline db s now feed = .ok (db, .noNewData) := by
  simp only [run_prediction_pipeline, hlatest, hempty]
  simp

/-- Witness for the empty-feed no-op at a concrete one-row store. -/
theorem empty_feed_noop_witness :
    latestRecord Obs.timestamp [({ timestamp := 0, xray_flux := 1 } : Obs)]
        = some { timestamp := 0, xray_flux := 1 }
    ∧ fetch_solar_data (computeStart 0 0 {}) (.success []) = .ok []
    ∧ run_prediction_pipeline
        { observation_data := [{ timestamp := 0, xray_flux := 1 }], model_predictions := [] }
        {} 0 (.success [])
      = .ok ({ observation_data := [{ timestamp := 0, xray_flux := 1 }], model_predictions := [] },
             .noNewData) :=
  ⟨rfl, rfl, empty_feed_noop _ {} 0 _ _ rfl rfl⟩

/-- C8: the latest endpoints answer 404 exactly when their table is empty,
while the historical endpoints never error and answer an empty collection
when no record matches the lookback window. -/
theorem latest_404_iff_table_empty (predTable : List Prediction) (obsTable : List Obs)
    (now : ℤ) (s : Settings) (tf : Option ℤ) :
    (get_latest_prediction predTable = .httpError 404 "No predictions found." ↔ predTable = [])
    ∧ (get_latest_observation obsTable = .httpError 404 "No observations found." ↔ obsTable = [])
    ∧ (∃ resp, get_historical_predictions predTable now s tf = .ok resp)
    ∧ (predTable.filter (fun p => decide (now - hoursToSec (validateTimeframe s tf) ≤ p.timestamp)) = [] →
        get_historical_predictions predTable now s tf = .ok { record_count := 0, data := [] })
    ∧ (∃ resp, get_historical_observations obsTable now s tf = .ok resp)
    ∧ (obsTable.filter (fun o => decide (now - hoursToSec (validateTimeframe s tf) ≤ o.timestamp)) = [] →
        get_historical_observations obsTable now s tf = .ok { record_count := 0, data := [] }) := by
  refine ⟨?_, ?_, ⟨_, rfl⟩, ?_, ⟨_, rfl⟩, ?_⟩
  · cases predTable <;> simp [get_latest_prediction, latestRecord]
  · cases obsTable <;> simp [get_latest_observation, latestRecord]
  · intro h
    simp only [get_historical_predictions]
    rw [h]
    rfl
  · intro h
    simp only [get_historical_observations]
    rw [h]
    rfl

/-- Witness for the 404 and empty-range behavior on concrete empty tables. -/
theorem latest_404_iff_table_empty_witness :
    get_latest_prediction [] = .httpError 404 "No predictions found."
    ∧ get_latest_observation [] = .httpError 404 "No observations found."
    ∧ get_historical_predictions [] 0 {} none = .ok { record_count := 0, data := [] }
    ∧ get_historical_observations [] 0 {} none = .ok { record_count := 0, data := [] } :=
  ⟨(latest_404_iff_table_empty [] [] 0 {} none).1.mpr rfl,
   (latest_404_iff_table_empty [] [] 0 {} none).2.1.mpr rfl,
   (latest_404_iff_table_empty [] [] 0 {} none).2.2.2.1 rfl,
   (latest_404_iff_table_empty [] [] 0 {} none).2.2.2.2.2 rfl⟩

/-- C9: both historical endpoints resolve the optional timeframe parameter
to the supplied value when it lies between 1 and MAX_REQUEST_HOURS and to
DEFAULT_REQUEST_HOURS when it is absent or out of range, and filter their
table from now minus that many hours. -/
theorem timeframe_resolution (s : Settings) (tf : Option ℤ) (predTable : List Prediction)
    (obsTable : List Obs) (now : ℤ) :
    validateTimeframe s tf = specLookback s tf
    ∧ get_historical_predictions predTable now s tf
        = .ok { record_count :=
                  (predTable.filter (fun p => decide (now - hoursToSec (specLookback s tf) ≤ p.timestamp))).length,
                data := predTable.filter (fun p => decide (now - hoursToSec (specLookback s tf) ≤ p.timestamp)) }
    ∧ get_historical_observations obsTable now s tf
        = .ok { record_count :=
                  (obsTable.filter (fun o => decide (now - hoursToSec (specLookback s tf) ≤ o.timestamp))).length,
                data := obsTable.filter (fun o => decide (now - hoursToSec (specLookback s tf) ≤ o.timestamp)) } := by
  have hv : validateTimeframe s tf = specLookback s tf := by
    cases tf with
    | none => rfl
    | some t =>
      simp only [validateTimeframe, specLookback]
      split_ifs with h1 h2 <;> first | rfl | omega
  exact ⟨hv, by simp [get_historical_predictions, hv], by simp [get_historical_observations, hv]⟩

/-- C10: predict is total on the empty window, answering probability 0 and
risk Low, and the ratio guard also answers probability 0 whenever the most
recent flux is not positive. -/
theorem predict_empty_window_guarded (model : Model) (now : ℤ) :
    (predict model now []).m_class_probability = 0
    ∧ (predict model now []).risk_level = "Low"
    ∧ ∀ (data : List Obs) (lastObs : Obs), data.getLast? = some lastObs →
        lastObs.xray_flux ≤ 0 → (predict model now data).m_class_probability = 0 := by
  refine ⟨rfl, ?_, ?_⟩
  · simp [predict]
    norm_num
  · intro data lastObs hlast hflux
    simp [predict, hlast, not_lt.mpr hflux]

/-- Witness for the guarded-probability theorem at a concrete window whose
last flux is negative. -/
theorem predict_empty_window_guarded_witness :
    ([({ timestamp := 0, xray_flux := -1 } : Obs)]).getLast? = some { timestamp := 0, xray_flux := -1 }
    ∧ (({ timestamp := 0, xray_flux := -1 } : Obs)).xray_flux ≤ 0
    ∧ (predict {} 0 [{ timestamp := 0, xray_flux := -1 }]).m_class_probability = 0 :=
  ⟨rfl, by norm_num, (predict_empty_window_guarded {} 0).2.2 _ _ rfl (by norm_num)⟩

end SolarFlare
